import Mathlib

/-!
# Verification of the s5cmd-python batch orchestration core

This file gives a shallow embedding, in Lean 4, of the pure/observable core of
`src/s5cmdpy/s5cmd_runner.py` (class `S5CmdRunner`) and proves or refutes the
frozen specification claims about it.

Modelling conventions:
* Python strings are Lean `String`s; `len` is `String.length` (character count,
  which agrees with Python for the ASCII data at hand).
* Machine-level 32-bit arithmetic inside MD5 is `Nat` arithmetic reduced
  `% 4294967296` at every step.
* Fallible Python code (`raise`) is modelled with `Except String`, the error
  payload being the exception message from the source.
* Filesystem and subprocess effects are modelled by explicit state threading:
  a list of `(path, content)` pairs for created files, and a list of argument
  vectors for launched subprocesses.  Wall-clock readings become explicit
  parameters (Python `time.time()` values as `Nat`s).
-/

set_option maxRecDepth 100000

namespace S5cmdpy

/-! ## Generic string helpers mirroring Python library functions -/

/-- POSIX `os.path.basename`: the characters after the last `/`. -/
def pyBasename (s : String) : String :=
  String.mk ((s.toList.reverse.takeWhile (fun c => c ≠ '/')).reverse)

/-- Python `str.rstrip("/")`: remove every trailing `/`. -/
def rstripSlashes (s : String) : String :=
  String.mk ((s.toList.reverse.dropWhile (fun c => c = '/')).reverse)

/-- Python whitespace (the characters matched by `str.strip()` and `\s`
for the ASCII range relevant here). -/
def isPySpace (c : Char) : Bool :=
  c = ' ' || c = '\t' || c = '\n' || c = '\r' || c = '\x0b' || c = '\x0c'

/-- Python `str.strip()`: remove leading and trailing whitespace. -/
def pyStrip (s : String) : String :=
  String.mk (((s.toList.dropWhile isPySpace).reverse.dropWhile isPySpace).reverse)

/-- Python `str.startswith(pre)`, computed on the character lists. -/
def pyStartsWith (s pre : String) : Bool :=
  pre.data.isPrefixOf s.data

/-- Python `str.endswith(suf)`, computed on the character lists. -/
def pyEndsWith (s suf : String) : Bool :=
  suf.data.reverse.isPrefixOf s.data.reverse

/-- Byte encoding `str.encode()` for the ASCII strings handled here: one byte per char. -/
def strBytes (s : String) : List Nat :=
  s.toList.map Char.toNat

/-! ## MD5 (`hashlib.md5`), on byte lists, with `Nat` arithmetic mod 2^32 -/

def M32 : Nat := 4294967296

def mask32 (x : Nat) : Nat := x % M32

/-- The 32-bit complement (the operand is always below `2^32` where used). -/
def not32 (x : Nat) : Nat := Nat.xor (mask32 x) 4294967295

/-- The 32-bit left rotation. -/
def rotl32 (x c : Nat) : Nat :=
  mask32 (Nat.lor (Nat.shiftLeft (mask32 x) c) (Nat.shiftRight (mask32 x) (32 - c)))

/-- The 64 MD5 sine-derived constants. -/
def md5K : List Nat :=
  [0xd76aa478, 0xe8c7b756, 0x242070db, 0xc1bdceee,
   0xf57c0faf, 0x4787c62a, 0xa8304613, 0xfd469501,
   0x698098d8, 0x8b44f7af, 0xffff5bb1, 0x895cd7be,
   0x6b901122, 0xfd987193, 0xa679438e, 0x49b40821,
   0xf61e2562, 0xc040b340, 0x265e5a51, 0xe9b6c7aa,
   0xd62f105d, 0x02441453, 0xd8a1e681, 0xe7d3fbc8,
   0x21e1cde6, 0xc33707d6, 0xf4d50d87, 0x455a14ed,
   0xa9e3e905, 0xfcefa3f8, 0x676f02d9, 0x8d2a4c8a,
   0xfffa3942, 0x8771f681, 0x6d9d6122, 0xfde5380c,
   0xa4beea44, 0x4bdecfa9, 0xf6bb4b60, 0xbebfbc70,
   0x289b7ec6, 0xeaa127fa, 0xd4ef3085, 0x04881d05,
   0xd9d4d039, 0xe6db99e5, 0x1fa27cf8, 0xc4ac5665,
   0xf4292244, 0x432aff97, 0xab9423a7, 0xfc93a039,
   0x655b59c3, 0x8f0ccc92, 0xffeff47d, 0x85845dd1,
   0x6fa87e4f, 0xfe2ce6e0, 0xa3014314, 0x4e0811a1,
   0xf7537e82, 0xbd3af235, 0x2ad7d2bb, 0xeb86d391]

/-- The 64 per-round left-rotation amounts. -/
def md5S : List Nat :=
  [7, 12, 17, 22, 7, 12, 17, 22, 7, 12, 17, 22, 7, 12, 17, 22,
   5, 9, 14, 20, 5, 9, 14, 20, 5, 9, 14, 20, 5, 9, 14, 20,
   4, 11, 16, 23, 4, 11, 16, 23, 4, 11, 16, 23, 4, 11, 16, 23,
   6, 10, 15, 21, 6, 10, 15, 21, 6, 10, 15, 21, 6, 10, 15, 21]

/-- Little-endian 32-bit word `i` of a 64-byte chunk. -/
def leWord (chunk : List Nat) (i : Nat) : Nat :=
  chunk.getD (4 * i) 0 + 256 * chunk.getD (4 * i + 1) 0 +
    65536 * chunk.getD (4 * i + 2) 0 + 16777216 * chunk.getD (4 * i + 3) 0

/-- One of the 64 MD5 rounds: state is `(A, B, C, D)`. -/
def md5Round (chunk : List Nat) (st : Nat × Nat × Nat × Nat) (i : Nat) :
    Nat × Nat × Nat × Nat :=
  let a := st.1
  let b := st.2.1
  let c := st.2.2.1
  let d := st.2.2.2
  let f :=
    if i < 16 then Nat.lor (Nat.land b c) (Nat.land (not32 b) d)
    else if i < 32 then Nat.lor (Nat.land d b) (Nat.land (not32 d) c)
    else if i < 48 then Nat.xor (Nat.xor b c) d
    else Nat.xor c (Nat.lor b (not32 d))
  let g :=
    if i < 16 then i
    else if i < 32 then (5 * i + 1) % 16
    else if i < 48 then (3 * i + 5) % 16
    else (7 * i) % 16
  let f2 := mask32 (f + a + md5K.getD i 0 + leWord chunk g)
  (d, mask32 (b + rotl32 f2 (md5S.getD i 0)), b, c)

/-- Process one 64-byte chunk, updating the running digest registers. -/
def md5Chunk (regs : Nat × Nat × Nat × Nat) (chunk : List Nat) :
    Nat × Nat × Nat × Nat :=
  let r := (List.range 64).foldl (md5Round chunk) regs
  (mask32 (regs.1 + r.1), mask32 (regs.2.1 + r.2.1),
   mask32 (regs.2.2.1 + r.2.2.1), mask32 (regs.2.2.2 + r.2.2.2))

/-- MD5 padding: `0x80`, zeros to 56 mod 64, then the 64-bit LE bit length. -/
def md5Pad (msg : List Nat) : List Nat :=
  let bitLen := 8 * msg.length
  let z := (119 - msg.length % 64) % 64
  msg ++ [0x80] ++ List.replicate z 0 ++
    (List.range 8).map (fun i => bitLen / 256 ^ i % 256)

/-- Split a byte list into 64-byte chunks (structural recursion on a fuel
bound so that the definition reduces definitionally). -/
def chunks64Aux : Nat → List Nat → List (List Nat)
  | 0, _ => []
  | _ + 1, [] => []
  | fuel + 1, a :: t => (a :: t).take 64 :: chunks64Aux fuel ((a :: t).drop 64)

/-- Split a byte list into 64-byte chunks. -/
def chunks64 (l : List Nat) : List (List Nat) :=
  chunks64Aux l.length l

/-- Serialize a 32-bit register as 4 little-endian bytes. -/
def leBytes (x : Nat) : List Nat :=
  [x % 256, x / 256 % 256, x / 65536 % 256, x / 16777216 % 256]

/-- The 16-byte MD5 digest of a byte list. -/
def md5Digest (msg : List Nat) : List Nat :=
  let r := (chunks64 (md5Pad msg)).foldl md5Chunk
    (0x67452301, 0xefcdab89, 0x98badcfe, 0x10325476)
  leBytes r.1 ++ leBytes r.2.1 ++ leBytes r.2.2.1 ++ leBytes r.2.2.2

/-- Lowercase hex character for a nibble. -/
def hexNibble (n : Nat) : Char :=
  if n < 10 then Char.ofNat (48 + n) else Char.ofNat (87 + n)

/-- Two lowercase hex characters for a byte. -/
def byteHex (b : Nat) : List Char :=
  [hexNibble (b / 16 % 16), hexNibble (b % 16)]

/-- The 32 characters of `hashlib.md5(msg).hexdigest()`. -/
def md5HexChars (msg : List Nat) : List Char :=
  ((md5Digest msg).map byteHex).flatten

/-! ## `S5CmdRunner.fast_list_hash` and `S5CmdRunner.generate_s5cmd_file` -/

/-- The f-string
`f"{num_uris}-{len(first_uri)}-{len(last_uri)}-{len(middle_uri)}-{total_length}"`
built by `fast_list_hash` (source lines 109–115). -/
def identString (s3_uris : List String) : String :=
  let first_uri := s3_uris.getD 0 ""
  let last_uri := s3_uris.getLastD ""
  let middle_uri := s3_uris.getD (s3_uris.length / 2) ""
  let total_length := (s3_uris.map String.length).sum
  let num_uris := s3_uris.length
  toString num_uris ++ "-" ++ toString first_uri.length ++ "-" ++
    toString last_uri.length ++ "-" ++ toString middle_uri.length ++ "-" ++
    toString total_length

/-- Method `S5CmdRunner.fast_list_hash` (source lines 102–116): raise `ValueError` on
an empty list, otherwise the first 8 characters of the MD5 hexdigest of
`identString`. -/
def fast_list_hash (s3_uris : List String) : Except String String :=
  if s3_uris.isEmpty then .error "The s3_uris list cannot be empty."
  else .ok (String.mk ((md5HexChars (strBytes (identString s3_uris))).take 8))

/-- One line written by the loop of `generate_s5cmd_file` (source line 130):
`f"cp {s3_uri} {dest_dir}/{os.path.basename(s3_uri)}\n"`. -/
def commandLine (dest_dir s3_uri : String) : String :=
  "cp " ++ s3_uri ++ " " ++ dest_dir ++ "/" ++ pyBasename s3_uri ++ "\n"

/-- The full contents written to the command file by the write loop
(source lines 128–131). -/
def s5cmdFileContent (s3_uris : List String) (dest_dir : String) : String :=
  s3_uris.foldl (fun acc u => acc ++ commandLine dest_dir u) ""

/-- The command-file path `f'/tmp/s5cmd_commands_{date_str}_{identifier}.txt'`
(source line 126); `date_str` (a `time.strftime` reading) is a parameter. -/
def commandFilePath (s3_uris : List String) (date_str : String) : String :=
  "/tmp/s5cmd_commands_" ++ date_str ++ "_" ++
    String.mk ((md5HexChars (strBytes (identString s3_uris))).take 8) ++ ".txt"

/-- A model filesystem: the files that exist, as `(path, content)` pairs. -/
abbrev FileSys := List (String × String)

/-- Method `S5CmdRunner.generate_s5cmd_file` (source lines 119–133) with the
filesystem made explicit: raise `ValueError` on an empty list (before any file
is created), otherwise create exactly one file and return its path. -/
def generate_s5cmd_file (fs : FileSys) (s3_uris : List String)
    (dest_dir date_str : String) : FileSys × Except String String :=
  if s3_uris.isEmpty then (fs, .error "The s3_uris list cannot be empty.")
  else
    match fast_list_hash s3_uris with
    | .error e => (fs, .error e)
    | .ok identifier =>
      let command_file_path :=
        "/tmp/s5cmd_commands_" ++ date_str ++ "_" ++ identifier ++ ".txt"
      ((command_file_path, s5cmdFileContent s3_uris dest_dir) :: fs,
        .ok command_file_path)

/-! ## `S5CmdRunner._update_progress_bar` (source lines 136–162)

The subprocess's output stream is modelled as a list of read events: each
line read from `process.stdout` carries the `time.time()` reading taken just
after it (`current_time`, a `Nat`) and the truth value of
`process.poll() is not None` at that moment.  `tqdm`'s counter `pbar.n`
starts at `0` and each `pbar.update(k)` adds `k` and emits one
ProgressSample with line-count `k`. -/

/-- One read event of the simulated output stream. -/
structure PEvent where
  time : Nat
  pollDone : Bool
deriving DecidableEq

/-- The loop state of `_update_progress_bar`: the pending `line_count`,
`last_report_time`, the samples emitted so far, and `pbar.n`. -/
structure PState where
  lineCount : Nat
  lastReport : Nat
  samples : List Nat
  n : Nat
deriving DecidableEq

/-- One iteration of the `for line in process.stdout` loop
(source lines 148–155). -/
def progressStep (report_interval : Nat) (st : PState) (e : PEvent) : PState :=
  let lc := st.lineCount + 1
  if report_interval ≤ e.time - st.lastReport ∨ e.pollDone = true then
    { lineCount := 0, lastReport := e.time,
      samples := st.samples ++ [lc], n := st.n + lc }
  else
    { st with lineCount := lc }

/-- Python `total or fallback`: `total` if it is neither `None` nor `0`,
else `fallback` (source line 161, `pbar.n = total or pbar.n`). -/
def pyOrNat (total : Option Nat) (fallback : Nat) : Nat :=
  match total with
  | none => fallback
  | some v => if v = 0 then fallback else v

/-- Method `S5CmdRunner._update_progress_bar`: returns the list of emitted sample
line-counts (one per `pbar.update` call, including the final flush at line
157) and the final value of `pbar.n` after the post-wait adjustment at lines
160–162.  `start_time` is the initial clock reading, `end_time` the reading
taken by the `time.time()` call at line 160. -/
def update_progress_bar (events : List PEvent) (total : Option Nat)
    (report_interval start_time end_time : Nat) : List Nat × Nat :=
  let st := events.foldl (progressStep report_interval)
    { lineCount := 0, lastReport := start_time, samples := [], n := 0 }
  let samples := st.samples ++ [st.lineCount]
  let n := st.n + st.lineCount
  let finalN :=
    if end_time - start_time < report_interval then pyOrNat total n else n
  (samples, finalN)

/-! ## `S5CmdRunner.download_from_s3_list` (source lines 165–189) -/

/-- Value of `os.path.expanduser` applied to the binary name on a POSIX host. -/
def s5cmdPath : String := "~/s5cmd"

/-- Environment of one bulk-download run.  `callRaises` is true when the
supervision step raises (the `RuntimeError` from `call_function` when the
tool cannot be ensured — no `try` protects lines 169–183); `removeOk` is
true when `os.remove` at line 187 succeeds. -/
structure RunEnv where
  callRaises : Bool
  removeOk : Bool
deriving DecidableEq

/-- Method `S5CmdRunner.download_from_s3_list`: generate the command file, supervise
the `run` subcommand (both the simplified and the passthrough branch launch
the same subprocess and fall through to the cleanup at lines 185–189), then
try to remove the command file; a removal failure is logged, not raised. -/
def download_from_s3_list (env : RunEnv) (fs : FileSys) (s3_uris : List String)
    (dest_dir date_str : String) (simplified_print : Bool) :
    FileSys × List (List String) × Except String Unit :=
  match generate_s5cmd_file fs s3_uris dest_dir date_str with
  | (fs1, .error e) => (fs1, [], .error e)
  | (fs1, .ok command_file_path) =>
    if env.callRaises then
      -- the exception propagates before the os.remove at line 187 is reached
      (fs1, [], .error "Failed to ensure s5cmd is available.")
    else
      let calls := if simplified_print
        then [[s5cmdPath, "run", command_file_path]]
        else [[s5cmdPath, "run", command_file_path]]
      if env.removeOk then
        (fs1.filter (fun p => p.1 ≠ command_file_path), calls, .ok ())
      else (fs1, calls, .ok ())

/-! ## `S5CmdRunner.get_s5cmd`, `__init__`, `call_function`, `mv`
(source lines 38–100 and 230–238) -/

/-- Host environment for binary acquisition: the `platform.machine()` value
and whether the HTTP download of the binary succeeds (otherwise
`requests.get`/`raise_for_status` raises a `RequestException`). -/
structure AcqEnv where
  arch : String
  downloadOk : Bool
deriving DecidableEq

/-- Process-wide state: whether a usable binary sits at `s5cmd_path`
(`has_s5cmd`, source line 47). -/
structure SysSt where
  hasBinary : Bool
deriving DecidableEq

/-- Method `S5CmdRunner.get_s5cmd` (source lines 50–76): unsupported architectures
raise `ValueError`; a failed download is caught (`except RequestException`),
logged, and the method returns normally leaving no binary behind. -/
def get_s5cmd (env : AcqEnv) (st : SysSt) : SysSt × Except String Unit :=
  if env.arch = "x86_64" ∨ env.arch = "aarch64" ∨ env.arch = "AMD64" then
    if env.downloadOk then ({ hasBinary := true }, .ok ())
    else (st, .ok ())
  else (st, .error "Unsupported architecture")

/-- Constructor `S5CmdRunner.__init__` (source lines 38–45): acquire the binary only when
it is missing; a download failure inside `get_s5cmd` does not raise, so
construction succeeds with no binary installed. -/
def runner_init (env : AcqEnv) (st : SysSt) : SysSt × Except String Unit :=
  if st.hasBinary then (st, .ok ())
  else get_s5cmd env st

/-- Method `S5CmdRunner.call_function` (source lines 78–100): if the binary is
missing, attempt one re-acquisition and re-check; raise
`RuntimeError("Failed to ensure s5cmd is available.")` if it is still
missing, otherwise launch the subprocess (returned as the singleton list of
its argument vector). -/
def call_function (env : AcqEnv) (st : SysSt) (command : String)
    (args : List String) : SysSt × Except String (List (List String)) :=
  if st.hasBinary then (st, .ok [command :: args])
  else
    match get_s5cmd env st with
    | (st1, .error e) => (st1, .error e)
    | (st1, .ok _) =>
      if st1.hasBinary then (st1, .ok [command :: args])
      else (st1, .error "Failed to ensure s5cmd is available.")

/-- Method `S5CmdRunner.mv` (source lines 230–238): a single unconditional
delegation to `call_function(self.s5cmd_path, "mv", from_str, to_str)` —
there is no validation of the two locators. -/
def mv (env : AcqEnv) (st : SysSt) (from_str to_str : String) :
    SysSt × Except String (List (List String)) :=
  call_function env st s5cmdPath ["mv", from_str, to_str]

/-! ## `S5CmdRunner.ls` — the listing parser (source lines 332–374)

Each stream line is stripped and matched against
`^(\d{4}/\d{2}/\d{2} \d{2}:\d{2}:\d{2})\s+(\d+)\s+(.*)$` by `re.search`.
Because of the `^` anchor the search can only match at position 0, and on
this pattern greedy matching with backtracking coincides with
maximal-munch: shortening a `\s+` run leaves a whitespace character where
`\d` must match, and shortening the `\d+` run leaves a digit where `\s`
must match, so no backtracking ever succeeds where maximal-munch fails.
The stripped line contains no newline, so `(.*)$` is exactly the rest. -/

/-- Match a list of single-character predicates against a prefix, returning
the consumed prefix and the remainder. -/
def matchShape : List (Char → Bool) → List Char → Option (List Char × List Char)
  | [], l => some ([], l)
  | p :: ps, c :: cs =>
    if p c then (matchShape ps cs).map (fun x => (c :: x.1, x.2)) else none
  | _ :: _, [] => none

/-- The fixed 19-character shape `\d{4}/\d{2}/\d{2} \d{2}:\d{2}:\d{2}`. -/
def dateShape : List (Char → Bool) :=
  let d := Char.isDigit
  let lit (c : Char) : Char → Bool := fun x => x = c
  [d, d, d, d, lit '/', d, d, lit '/', d, d, lit ' ',
   d, d, lit ':', d, d, lit ':', d, d]

/-- Python `int()` on a digit string. -/
def digitsToNat (ds : List Char) : Nat :=
  ds.foldl (fun a c => 10 * a + (c.toNat - 48)) 0

/-- The per-line regex match of `S5CmdRunner.ls` (source lines 354–357):
`none` for a line that does not match (the line is skipped), otherwise the
record `(path, size, date)`. -/
def parseLsLine (line : String) : Option (String × Nat × String) :=
  let l := (pyStrip line).toList
  match matchShape dateShape l with
  | none => none
  | some (dateCs, r1) =>
    let r2 := r1.dropWhile isPySpace
    if r2.length = r1.length then none
    else
      let ds := r2.takeWhile Char.isDigit
      if ds.isEmpty then none
      else
        let r3 := r2.dropWhile Char.isDigit
        let r4 := r3.dropWhile isPySpace
        if r4.length = r3.length then none
        else some (String.mk r4, digitsToNat ds, String.mk dateCs)

/-- Assignment `output_dict[path] = (int(size), date)`: Python dict assignment —
overwrite in place when the key exists, else append. -/
def dictSet (m : List (String × Nat × String)) (r : String × Nat × String) :
    List (String × Nat × String) :=
  if m.any (fun p => p.1 = r.1) then
    m.map (fun p => if p.1 = r.1 then r else p)
  else m ++ [r]

/-- The record-building loop of `S5CmdRunner.ls` over the stream's lines
(the tqdm reporting in that loop never touches `output_dict`). -/
def ls (lines : List String) : List (String × Nat × String) :=
  lines.foldl (fun m line =>
    match parseLsLine line with
    | some r => dictSet m r
    | none => m) []

/-! ## `S5CmdRunner.sync` locator normalization (source lines 304–320) -/

/-- The two source adjustments of `sync`, in source order; `isdir` is the
`os.path.isdir` oracle. -/
def syncNormalizeSource (isdir : String → Bool) (source : String) : String :=
  let source :=
    if pyStartsWith source "s3://" = false ∧ isdir source = true ∧
        pyEndsWith source "/" = false
    then source ++ "/" else source
  if pyStartsWith source "s3://" = true ∧ pyEndsWith source "/*" = false
  then rstripSlashes source ++ "/*" else source

/-- The destination adjustment of `sync` (source lines 317–320). -/
def syncNormalizeDest (destination : String) : String :=
  if pyStartsWith destination "s3://" = true ∧ pyEndsWith destination "/" = false
  then destination ++ "/" else destination

/-! ## `S5CmdRunner.cp` (source lines 240–267)

State: the set of local files (scratch included) and the launched
subprocess argument vectors.  The advisory warning at lines 249–252 only
prints and is omitted; the external tool is assumed installed (the
`call_function` availability path is modelled separately above). -/

/-- Local files plus launched subprocess calls. -/
structure CpSt where
  files : List String
  calls : List (List String)
deriving DecidableEq

/-- Check `re.match` against the pattern `https?://` at the start of `uri`. -/
def isHttpUri (s : String) : Bool :=
  pyStartsWith s "http://" || pyStartsWith s "https://"

/-- Value of `urlparse(url).path` for the HTTP(S) URLs handled here: everything from
the first `/` after the authority. -/
def urlPath (url : String) : String :=
  let rest :=
    if pyStartsWith url "https://" then url.toList.drop 8
    else if pyStartsWith url "http://" then url.toList.drop 7
    else url.toList
  String.mk (rest.dropWhile (fun c => c ≠ '/'))

/-- Method `S5CmdRunner.get_filename_from_url` (source lines 194–205). -/
def get_filename_from_url (url : String) : String :=
  pyBasename (urlPath url)

/-- The HTTP branch of `S5CmdRunner.download_file` (source lines 219–225):
on success the response body is written to `/tmp/<filename>`; on failure
`raise_for_status` raises. -/
def download_file_http (downloadOk : Bool) (st : CpSt) (uri : String) :
    CpSt × Except String String :=
  if downloadOk then
    let local_path := "/tmp/" ++ get_filename_from_url uri
    ({ st with files := local_path :: st.files }, .ok local_path)
  else (st, .error "HTTPError")

/-- Method `S5CmdRunner.cp`: an HTTP(S) source is first materialized to a scratch
path; then an object-storage destination gets a subprocess upload of the
scratch file (which is never deleted), while a local destination gets
`shutil.move` (relocating the scratch file to `to_str`).  Every non-HTTP
source goes to the subprocess directly (lines 262–267 run the same call in
both arms). -/
def cp (downloadOk : Bool) (st : CpSt) (from_str to_str : String) :
    CpSt × Except String Unit :=
  if isHttpUri from_str then
    match download_file_http downloadOk st from_str with
    | (st1, .error e) => (st1, .error e)
    | (st1, .ok downloaded_path) =>
      if pyStartsWith to_str "s3://" then
        ({ st1 with
            calls := st1.calls ++ [[s5cmdPath, "cp", downloaded_path, to_str]] },
          .ok ())
      else
        ({ st1 with
            files := to_str :: st1.files.filter (fun f => f ≠ downloaded_path) },
          .ok ())
  else
    ({ st with calls := st.calls ++ [[s5cmdPath, "cp", from_str, to_str]] },
      .ok ())

/-- Hexadecimal character test (spec side, for stating claim C5). -/
def isHexChar (c : Char) : Bool :=
  c.isDigit || ('a' ≤ c && c ≤ 'f')

end S5cmdpy

deriving instance DecidableEq for Except

namespace S5cmdpy

/-! ## Helper lemmas -/

theorem s5cmdFileContent_eq (s3_uris : List String) (dest_dir : String) :
    s5cmdFileContent s3_uris dest_dir =
      String.join (s3_uris.map (commandLine dest_dir)) := by
  simp [s5cmdFileContent, String.join, List.foldl_map]

theorem generate_spec (fs : FileSys) (s3_uris : List String)
    (dest_dir date_str : String) (h : s3_uris ≠ []) :
    generate_s5cmd_file fs s3_uris dest_dir date_str =
      ((commandFilePath s3_uris date_str,
        String.join (s3_uris.map (commandLine dest_dir))) :: fs,
       .ok (commandFilePath s3_uris date_str)) := by
  cases s3_uris with
  | nil => exact absurd rfl h
  | cons a t =>
    simp [generate_s5cmd_file, fast_list_hash, commandFilePath,
      s5cmdFileContent_eq]

theorem md5Digest_length (msg : List Nat) : (md5Digest msg).length = 16 := by
  simp [md5Digest, leBytes]

theorem md5HexChars_length (msg : List Nat) : (md5HexChars msg).length = 32 := by
  have h : ∀ b : Nat, (byteHex b).length = 2 := fun b => rfl
  simp [md5HexChars, List.length_flatten, List.map_map, Function.comp_def, h,
    List.map_const, md5Digest_length]

theorem hexNibble_isHex : ∀ n < 16, isHexChar (hexNibble n) = true := by decide

theorem mem_md5HexChars_isHex (msg : List Nat) (c : Char)
    (hc : c ∈ md5HexChars msg) : isHexChar c = true := by
  simp only [md5HexChars, List.mem_flatten, List.mem_map] at hc
  obtain ⟨l, ⟨b, _, rfl⟩, hcl⟩ := hc
  simp only [byteHex, List.mem_cons, List.mem_singleton, List.not_mem_nil,
    or_false] at hcl
  rcases hcl with rfl | rfl
  · exact hexNibble_isHex _ (Nat.mod_lt _ (by norm_num))
  · exact hexNibble_isHex _ (Nat.mod_lt _ (by norm_num))

/-! ## Claim theorems -/

/-- C4: for every non-empty list of source locators and destination
directory, `generate_s5cmd_file` produces a file containing exactly one line
per request, in the input order, each of the form
`cp <source> <destination_dir>/<basename of source>\n`; in particular for
the requests `s3://b/x.csv` and `s3://b/y.csv` with destination `/tmp/out`,
the file contains exactly the two lines `cp s3://b/x.csv /tmp/out/x.csv` and
`cp s3://b/y.csv /tmp/out/y.csv` in that order. -/
theorem generate_file_one_line_per_request (s3_uris : List String)
    (dest_dir date_str : String) (fs : FileSys) (h : s3_uris ≠ []) :
    (∃ path, generate_s5cmd_file fs s3_uris dest_dir date_str =
      ((path, String.join (s3_uris.map (commandLine dest_dir))) :: fs,
        .ok path)) ∧
    s5cmdFileContent ["s3://b/x.csv", "s3://b/y.csv"] "/tmp/out" =
      "cp s3://b/x.csv /tmp/out/x.csv\n" ++ "cp s3://b/y.csv /tmp/out/y.csv\n" :=
  ⟨⟨commandFilePath s3_uris date_str,
    generate_spec fs s3_uris dest_dir date_str h⟩, by decide⟩

/-- Witness for C4 at the concrete input from the claim. -/
theorem generate_file_one_line_per_request_witness :
    (∃ path, generate_s5cmd_file [] ["s3://b/x.csv", "s3://b/y.csv"] "/tmp/out"
        "20240101-000000" =
      ((path,
        String.join ((["s3://b/x.csv", "s3://b/y.csv"]).map
          (commandLine "/tmp/out"))) :: [], .ok path)) ∧
    s5cmdFileContent ["s3://b/x.csv", "s3://b/y.csv"] "/tmp/out" =
      "cp s3://b/x.csv /tmp/out/x.csv\n" ++ "cp s3://b/y.csv /tmp/out/y.csv\n" :=
  generate_file_one_line_per_request ["s3://b/x.csv", "s3://b/y.csv"]
    "/tmp/out" "20240101-000000" [] (by decide)

/-- C9: called with an empty request sequence, both the batch file generator
and the fingerprint function fail with the empty-input `ValueError`, and the
generator returns with the filesystem unchanged — no file is created before
the validation error is raised. -/
theorem empty_input_rejected :
    (∀ (fs : FileSys) (dest_dir date_str : String),
      generate_s5cmd_file fs [] dest_dir date_str =
        (fs, .error "The s3_uris list cannot be empty.")) ∧
    fast_list_hash [] = .error "The s3_uris list cannot be empty." :=
  ⟨fun _ _ _ => rfl, rfl⟩

/-- C5: for every non-empty sequence of locator strings, `fast_list_hash` is
pure and deterministic (two calls return the same value), and returns an
8-character hexadecimal string equal to the truncated MD5 hexdigest of the
identifier string built from the request count, the lengths of the first,
last, and middle-indexed locators, and the total summed length. -/
theorem fast_list_hash_deterministic_hex (s3_uris : List String)
    (h : s3_uris ≠ []) :
    fast_list_hash s3_uris = fast_list_hash s3_uris ∧
    ∃ s, fast_list_hash s3_uris = .ok s ∧ s.length = 8 ∧
      (∀ c ∈ s.data, isHexChar c = true) ∧
      s = String.mk ((md5HexChars (strBytes (identString s3_uris))).take 8) := by
  refine ⟨rfl,
    String.mk ((md5HexChars (strBytes (identString s3_uris))).take 8),
    ?_, ?_, ?_, rfl⟩
  · simp [fast_list_hash, h]
  · simp [String.length, List.length_take, md5HexChars_length]
  · intro c hc
    exact mem_md5HexChars_isHex _ c (List.take_subset 8 _ hc)

/-- Witness for C5 at the concrete input `["s3://b/a.txt"]` from the claim. -/
theorem fast_list_hash_deterministic_hex_witness :
    fast_list_hash ["s3://b/a.txt"] = fast_list_hash ["s3://b/a.txt"] ∧
    ∃ s, fast_list_hash ["s3://b/a.txt"] = .ok s ∧ s.length = 8 ∧
      (∀ c ∈ s.data, isHexChar c = true) ∧
      s = String.mk
        ((md5HexChars (strBytes (identString ["s3://b/a.txt"]))).take 8) :=
  fast_list_hash_deterministic_hex ["s3://b/a.txt"] (by decide)

/-! ## Claim C1 — progress aggregation -/

theorem progressStep_sum (ri : Nat) (st : PState) (e : PEvent) :
    (progressStep ri st e).samples.sum + (progressStep ri st e).lineCount =
      st.samples.sum + st.lineCount + 1 ∧
    (progressStep ri st e).n + st.samples.sum =
      st.n + (progressStep ri st e).samples.sum := by
  unfold progressStep
  split <;> simp [List.sum_append] <;> omega

theorem progressFold_sum (ri : Nat) :
    ∀ (events : List PEvent) (st : PState),
      (events.foldl (progressStep ri) st).samples.sum +
          (events.foldl (progressStep ri) st).lineCount =
        st.samples.sum + st.lineCount + events.length ∧
      (events.foldl (progressStep ri) st).n + st.samples.sum =
        st.n + (events.foldl (progressStep ri) st).samples.sum := by
  intro events
  induction events with
  | nil => intro st; simp
  | cons e es ih =>
    intro st
    obtain ⟨h1, h2⟩ := progressStep_sum ri st e
    obtain ⟨h3, h4⟩ := ih (progressStep ri st e)
    simp only [List.foldl_cons, List.length_cons]
    omega

/-- Counterexample to C1 as stated: a stream of 5 lines finishing before the
first interval with `expectedTotal = 3` yields a final reported count of `3`,
an undercount of the 5 observed lines — not
`max observed expectedTotal = 5`. -/
theorem update_progress_bar_undercount_cex :
    (update_progress_bar (List.replicate 5 ⟨0, false⟩) (some 3) 5 0 0).1.sum = 5 ∧
    (update_progress_bar (List.replicate 5 ⟨0, false⟩) (some 3) 5 0 0).2 = 3 ∧
    (update_progress_bar (List.replicate 5 ⟨0, false⟩) (some 3) 5 0 0).2 ≠
      max 5 3 := by decide

/-- C1 (amended): for every simulated stream of `N` lines, the sum of the
line-counts across all emitted ProgressSamples equals `N` exactly; when the
process finishes before the first `reportInterval` elapses the final
reported count is overridden to the caller-supplied `expectedTotal` whenever
one was supplied and nonzero — even when that undercounts the observed
lines — and otherwise equals the true observed total `N`. -/
theorem update_progress_bar_sum (events : List PEvent) (total : Option Nat)
    (ri start_time end_time : Nat) :
    (update_progress_bar events total ri start_time end_time).1.sum =
      events.length ∧
    (update_progress_bar events total ri start_time end_time).2 =
      if end_time - start_time < ri then pyOrNat total events.length
      else events.length := by
  obtain ⟨h1, h2⟩ :=
    progressFold_sum ri events ⟨0, start_time, [], 0⟩
  simp only [update_progress_bar, List.sum_append, List.sum_cons,
    List.sum_nil] at h1 h2 ⊢
  have hn : (events.foldl (progressStep ri) ⟨0, start_time, [], 0⟩).n +
      (events.foldl (progressStep ri) ⟨0, start_time, [], 0⟩).lineCount =
      events.length := by omega
  rw [hn]
  exact ⟨by omega, rfl⟩

/-! ## Claim C2 — command-file cleanup in `download_from_s3_list` -/

/-- Counterexample to C2 as stated: when the supervision step raises (here
the `RuntimeError` from `call_function`), `os.remove` is never reached and
the generated command file outlives the failed run. -/
theorem download_from_s3_list_leak_cex :
    (download_from_s3_list ⟨true, true⟩ [] ["s3://b/x.csv"] "/tmp/out"
        "20240101-000000" true).2.2 =
      .error "Failed to ensure s5cmd is available." ∧
    (download_from_s3_list ⟨true, true⟩ [] ["s3://b/x.csv"] "/tmp/out"
        "20240101-000000" true).1.map Prod.fst =
      [commandFilePath ["s3://b/x.csv"] "20240101-000000"] := by decide

/-- C2 (amended): the generated command file is deleted on the exit paths the
code actually reaches the cleanup on — success and subprocess failure, with
`os.remove` succeeding — but a supervisor-level exception raised during
supervision propagates before the cleanup line and leaves the file behind. -/
theorem download_from_s3_list_removes_file (env : RunEnv) (fs : FileSys)
    (s3_uris : List String) (dest_dir date_str : String)
    (simplified_print : Bool) (h : s3_uris ≠ [])
    (h2 : env.callRaises = false) (h3 : env.removeOk = true) :
    (download_from_s3_list env fs s3_uris dest_dir date_str
        simplified_print).2.2 = .ok () ∧
    ∀ p ∈ (download_from_s3_list env fs s3_uris dest_dir date_str
        simplified_print).1, p.1 ≠ commandFilePath s3_uris date_str := by
  unfold download_from_s3_list
  rw [generate_spec fs s3_uris dest_dir date_str h]
  simp only [h2, h3, Bool.false_eq_true, if_false, if_true]
  refine ⟨by trivial, ?_⟩
  intro p hp
  have := List.mem_filter.mp hp
  simpa using this.2

/-- Witness for the amended C2 on a concrete successful run. -/
theorem download_from_s3_list_removes_file_witness :
    (download_from_s3_list ⟨false, true⟩ [] ["s3://b/x.csv"] "/tmp/out"
        "20240101-000000" true).2.2 = .ok () ∧
    ∀ p ∈ (download_from_s3_list ⟨false, true⟩ [] ["s3://b/x.csv"] "/tmp/out"
        "20240101-000000" true).1,
      p.1 ≠ commandFilePath ["s3://b/x.csv"] "20240101-000000" :=
  download_from_s3_list_removes_file ⟨false, true⟩ [] ["s3://b/x.csv"]
    "/tmp/out" "20240101-000000" true (by decide) rfl rfl

/-! ## Claim C3 — local-to-local `mv` -/

/-- Counterexample to C3: with both locators local (no `s3://` prefix) and
the tool available, `mv` raises nothing — it launches the subprocess
`s5cmd mv <src> <dst>` and returns normally, so no
`UnsupportedOperationError` is raised before the launch. -/
theorem mv_local_local_cex :
    pyStartsWith "/tmp/a.txt" "s3://" = false ∧
    pyStartsWith "/tmp/b/" "s3://" = false ∧
    mv ⟨"x86_64", true⟩ ⟨true⟩ "/tmp/a.txt" "/tmp/b/" =
      (⟨true⟩, .ok [[s5cmdPath, "mv", "/tmp/a.txt", "/tmp/b/"]]) := by decide

/-- C3 (amended): `mv` performs no validation of its locators at all — for
every pair, local-to-local included, it delegates directly to one subprocess
launch `s5cmd mv <src> <dst>` and succeeds whenever the tool is available;
no unsupported-operation error exists in the code. -/
theorem mv_delegates_unconditionally (env : AcqEnv) (st : SysSt)
    (from_str to_str : String) (h : st.hasBinary = true) :
    mv env st from_str to_str =
      (st, .ok [[s5cmdPath, "mv", from_str, to_str]]) := by
  cases st
  simp_all [mv, call_function]

/-- Witness for the amended C3 at a concrete local-to-local pair. -/
theorem mv_delegates_unconditionally_witness :
    mv ⟨"x86_64", true⟩ ⟨true⟩ "/tmp/src.txt" "/tmp/dst/" =
      (⟨true⟩, .ok [[s5cmdPath, "mv", "/tmp/src.txt", "/tmp/dst/"]]) :=
  mv_delegates_unconditionally ⟨"x86_64", true⟩ ⟨true⟩ "/tmp/src.txt"
    "/tmp/dst/" rfl

/-! ## Claim C6 — listing parser -/

/-- C6: the listing parser maps
`"2024/01/15 10:30:00       1024  folder/file name.txt"` to the record with
path `folder/file name.txt` (everything after the size field, spaces
included), size `1024`, and timestamp `2024/01/15 10:30:00`; a malformed
line missing the size field is silently skipped and contributes no record to
the returned mapping. -/
theorem ls_parses_record_and_skips_malformed :
    parseLsLine "2024/01/15 10:30:00       1024  folder/file name.txt" =
      some ("folder/file name.txt", 1024, "2024/01/15 10:30:00") ∧
    parseLsLine "2024/01/15 10:30:00  folder/file name.txt" = none ∧
    ls ["2024/01/15 10:30:00       1024  folder/file name.txt",
        "2024/01/15 10:30:00  folder/file name.txt"] =
      [("folder/file name.txt", 1024, "2024/01/15 10:30:00")] := by decide

/-! ## Claim C7 — sync normalization idempotence -/

/-- C7: the sync locator normalization is idempotent on already-normalized
locators: a local source ending in `/`, an object-storage source ending in
`/*`, and an object-storage destination ending in `/` are all fixed points,
so a second application produces no further change. -/
theorem sync_normalization_idempotent (isdir : String → Bool)
    (src_local src_s3 dst : String)
    (h1 : pyStartsWith src_local "s3://" = false)
    (h2 : pyEndsWith src_local "/" = true)
    (h3 : pyStartsWith src_s3 "s3://" = true)
    (h4 : pyEndsWith src_s3 "/*" = true)
    (h5 : pyStartsWith dst "s3://" = true)
    (h6 : pyEndsWith dst "/" = true) :
    syncNormalizeSource isdir src_local = src_local ∧
    syncNormalizeSource isdir
        (syncNormalizeSource isdir src_local) =
      syncNormalizeSource isdir src_local ∧
    syncNormalizeSource isdir src_s3 = src_s3 ∧
    syncNormalizeSource isdir (syncNormalizeSource isdir src_s3) =
      syncNormalizeSource isdir src_s3 ∧
    syncNormalizeDest dst = dst ∧
    syncNormalizeDest (syncNormalizeDest dst) = syncNormalizeDest dst := by
  have e1 : syncNormalizeSource isdir src_local = src_local := by
    simp [syncNormalizeSource, h1, h2]
  have e2 : syncNormalizeSource isdir src_s3 = src_s3 := by
    simp [syncNormalizeSource, h3, h4]
  have e3 : syncNormalizeDest dst = dst := by
    simp [syncNormalizeDest, h5, h6]
  exact ⟨e1, by rw [e1, e1], e2, by rw [e2, e2], e3, by rw [e3, e3]⟩

/-- Witness for C7 at concrete already-normalized locators. -/
theorem sync_normalization_idempotent_witness :
    syncNormalizeSource (fun _ => true) "/data/" = "/data/" ∧
    syncNormalizeSource (fun _ => true)
        (syncNormalizeSource (fun _ => true) "/data/") =
      syncNormalizeSource (fun _ => true) "/data/" ∧
    syncNormalizeSource (fun _ => true) "s3://b/p/*" = "s3://b/p/*" ∧
    syncNormalizeSource (fun _ => true)
        (syncNormalizeSource (fun _ => true) "s3://b/p/*") =
      syncNormalizeSource (fun _ => true) "s3://b/p/*" ∧
    syncNormalizeDest "s3://b/q/" = "s3://b/q/" ∧
    syncNormalizeDest (syncNormalizeDest "s3://b/q/") =
      syncNormalizeDest "s3://b/q/" :=
  sync_normalization_idempotent (fun _ => true) "/data/" "s3://b/p/*"
    "s3://b/q/" (by decide) (by decide) (by decide) (by decide) (by decide)
    (by decide)

/-! ## Claim C8 — HTTP-source `cp` and the scratch file -/

/-- Counterexample to C8: copying `http://h/f.txt` to the object-storage
destination `s3://b/` materializes the source at `/tmp/f.txt` and launches
the upload (the hand-off succeeds), yet the scratch file `/tmp/f.txt` is
still present afterwards — it is never deleted. -/
theorem cp_http_scratch_cex :
    cp true ⟨[], []⟩ "http://h/f.txt" "s3://b/" =
      (⟨["/tmp/f.txt"], [[s5cmdPath, "cp", "/tmp/f.txt", "s3://b/"]]⟩,
        .ok ()) ∧
    "/tmp/f.txt" ∈ (cp true ⟨[], []⟩ "http://h/f.txt" "s3://b/").1.files := by
  decide

/-- C8 (amended): an HTTP(S) source is first materialized to the local
scratch path `/tmp/<basename of URL path>`; for an object-storage
destination the scratch file is handed off by a subprocess upload and is
never deleted (it outlives the copy), while for a local destination the
hand-off is a `shutil.move` that relocates the scratch file to the
destination, removing the scratch path. -/
theorem cp_http_scratch_lifecycle (st : CpSt) (from_str to_str : String)
    (h : isHttpUri from_str = true) :
    (cp true st from_str to_str).2 = .ok () ∧
    (pyStartsWith to_str "s3://" = true →
      ("/tmp/" ++ get_filename_from_url from_str) ∈
          (cp true st from_str to_str).1.files ∧
      (cp true st from_str to_str).1.calls =
        st.calls ++ [[s5cmdPath, "cp",
          "/tmp/" ++ get_filename_from_url from_str, to_str]]) ∧
    (pyStartsWith to_str "s3://" = false →
      to_str ≠ "/tmp/" ++ get_filename_from_url from_str →
      ("/tmp/" ++ get_filename_from_url from_str) ∉
          (cp true st from_str to_str).1.files ∧
      to_str ∈ (cp true st from_str to_str).1.files ∧
      (cp true st from_str to_str).1.calls = st.calls) := by
  simp only [cp, h, if_true, download_file_http]
  constructor
  · split <;> rfl
  constructor
  · intro hs3
    simp [hs3]
  · intro hs3 hne
    simp only [hs3, Bool.false_eq_true, if_false]
    refine ⟨?_, by simp, by trivial⟩
    simp only [List.mem_cons, List.mem_filter]
    rintro (hc | ⟨-, hc⟩)
    · exact hne hc.symm
    · simp at hc

/-- Witness for the amended C8: the object-storage-destination conjunct at
the concrete input of the counterexample, and the local-destination conjunct
at `/tmp/out.txt`. -/
theorem cp_http_scratch_lifecycle_witness :
    ("/tmp/" ++ get_filename_from_url "http://h/f.txt") ∈
        (cp true ⟨[], []⟩ "http://h/f.txt" "s3://b/").1.files ∧
    ("/tmp/" ++ get_filename_from_url "http://h/f.txt") ∉
        (cp true ⟨[], []⟩ "http://h/f.txt" "/tmp/out.txt").1.files :=
  ⟨((cp_http_scratch_lifecycle ⟨[], []⟩ "http://h/f.txt" "s3://b/"
      (by decide)).2.1 (by decide)).1,
   ((cp_http_scratch_lifecycle ⟨[], []⟩ "http://h/f.txt" "/tmp/out.txt"
      (by decide)).2.2 (by decide) (by decide)).1⟩

/-! ## Claim C10 — deferred acquisition failure -/

/-- C10: when the one-time acquisition download fails with a request
exception, `get_s5cmd` returns normally (the exception is caught and
logged), so constructing an `S5CmdRunner` succeeds with no usable binary
installed; the failure surfaces only on the next `call_function` invocation,
as a `RuntimeError` after its single re-acquisition attempt also fails. -/
theorem acquisition_failure_deferred :
    get_s5cmd ⟨"x86_64", false⟩ ⟨false⟩ = (⟨false⟩, .ok ()) ∧
    runner_init ⟨"x86_64", false⟩ ⟨false⟩ = (⟨false⟩, .ok ()) ∧
    (∀ (command : String) (args : List String),
      call_function ⟨"x86_64", false⟩ ⟨false⟩ command args =
        (⟨false⟩, .error "Failed to ensure s5cmd is available.")) :=
  ⟨rfl, rfl, fun _ _ => rfl⟩

/-- Cross-check of the MD5 embedding: for `["s3://b/a.txt"]` the identifier
string is `1-12-12-12-12`, whose MD5 hexdigest starts `eda57e71`, matching
`hashlib.md5(b"1-12-12-12-12").hexdigest()[:8]`. -/
theorem fast_list_hash_concrete_value :
    fast_list_hash ["s3://b/a.txt"] = .ok "eda57e71" ∧
    identString ["s3://b/a.txt"] = "1-12-12-12-12" := by decide

end S5cmdpy
